import Mathlib

/-!
Verification of the download orchestration layer of `video_downloader.py`.

The source is a thin wrapper around an external extraction/download engine
(yt-dlp).  The in-repo logic embedded here is:

* the option/format-selector builder inside `VideoDownloader.download_video`
  (lines 143-215 of the source);
* the progress callback `VideoDownloader.progress_hook` (lines 49-64);
* the probe `VideoDownloader.get_video_info` (lines 66-86);
* the control flow of `download_video` itself (lines 121-244);
* the batch loop and archive-path resolution in `main` (lines 393-434);
* the import guard and exit-code behaviour (lines 15-25, 399-411).

The external engine is abstracted as a record of functions (`Engine`); a
Python exception raised by an engine call is modelled as an `Except.error`
value (for `extract_info`, equivalently an `Option` that is `none`), since
the wrapper only ever distinguishes "raised" from "returned".
-/

namespace VideoDL

/-- Substring test on character lists: `pat` occurs contiguously in `l`. -/
def listContains (l pat : List Char) : Bool :=
  match l with
  | [] => pat.isEmpty
  | _ :: t => pat.isPrefixOf l || listContains t pat

/-- Substring test on strings. -/
def strContains (s pat : String) : Bool :=
  listContains s.data pat.data

/-- Split a character list on a single separator character; agrees with
the Python `str.split(sep)` (and Lean `String.splitOn`) semantics for a
one-character separator, empty pieces included. -/
def splitChar (sep : Char) : List Char → List (List Char)
  | [] => [[]]
  | c :: t =>
    if c = sep then [] :: splitChar sep t
    else
      match splitChar sep t with
      | [] => [[c]]
      | h :: r => (c :: h) :: r

/-- String split on a single separator character. -/
def strSplit (s : String) (sep : Char) : List String :=
  (splitChar sep s.data).map (fun l => String.mk l)

/-- `str.strip()`: remove leading and trailing whitespace. -/
def strTrim (s : String) : String :=
  String.mk (((s.data.dropWhile Char.isWhitespace).reverse.dropWhile
    Char.isWhitespace).reverse)

/-- `str.startswith(pre)`. -/
def strStartsWith (s pre : String) : Bool :=
  pre.data.isPrefixOf s.data

/-- One yt-dlp post-processor entry, as built at source lines 181-211:
a `key` plus the optional codec/quality parameters used by
`FFmpegExtractAudio`. -/
structure PostProcessor where
  key : String
  preferredcodec : Option String := none
  preferredquality : Option String := none
deriving Repr, DecidableEq

/-- Source line 200: `quality.replace("p", "")`, which removes every
occurrence of the character `p` from the quality token — for a
one-character pattern replaced by the empty string this is a filter. -/
def heightBound (quality : String) : String :=
  String.mk (quality.data.filter (fun c => c ≠ 'p'))

/-- The `format` selector chosen for `format_type == "video"`,
source lines 193-200. -/
def videoFormatSelector (quality video_format : String) : String :=
  if quality = "best" then
    "bestvideo[ext=" ++ video_format ++ "]+bestaudio[ext=m4a]/best[ext=" ++
      video_format ++ "]/best"
  else if quality = "worst" then
    "worst"
  else
    "bestvideo[height<=" ++ heightBound quality ++ "]+bestaudio/best[height<=" ++
      heightBound quality ++ "]"

/-- The post-processor list built for `format_type == "audio"`,
source lines 181-191: extract-audio first, then `EmbedThumbnail` when
requested, then `FFmpegMetadata` appended last. -/
def audioPostprocessors (audio_format : String) (embed_thumbnail : Bool) :
    List PostProcessor :=
  [{ key := "FFmpegExtractAudio", preferredcodec := some audio_format,
     preferredquality := some "192" }] ++
  (if embed_thumbnail then [{ key := "EmbedThumbnail" }] else []) ++
  [{ key := "FFmpegMetadata" }]

/-- The post-processor list built for `format_type == "video"`,
source lines 201-211: metadata first, `FFmpegEmbedSubtitle` appended only
inside the `writesubtitles` branch, `EmbedThumbnail` appended whenever
`embed_thumbnail` is set. -/
def videoPostprocessors (writesubtitles embedsubtitles embed_thumbnail : Bool) :
    List PostProcessor :=
  [{ key := "FFmpegMetadata" }] ++
  (if writesubtitles && embedsubtitles then [{ key := "FFmpegEmbedSubtitle" }] else []) ++
  (if embed_thumbnail then [{ key := "EmbedThumbnail" }] else [])

/-- A path is absolute when it starts with a slash
(POSIX `Path.is_absolute`). -/
def isAbsolute (p : String) : Bool :=
  strStartsWith p "/"

/-- Join of two path components, as `Path(a) / b` renders for a relative
`b`. -/
def pathJoin (a b : String) : String :=
  a ++ "/" ++ b

/-- `Path(p).parent`: drop the final path component. -/
def parentDir (p : String) : String :=
  String.intercalate "/" (strSplit p '/').dropLast

/-- Source lines 393-397 of `main`: an explicitly supplied `--archive`
argument is kept if absolute, joined onto the output directory if
relative; a missing (or empty, hence falsy) argument resolves to `none`
and the default is applied later inside `download_video`. -/
def mainArchivePath (archive_arg : Option String) (output : String) :
    Option String :=
  match archive_arg with
  | none => none
  | some a =>
    if a = "" then none
    else if isAbsolute a then some a
    else some (pathJoin output a)

/-- Source line 397: the parent directory created by `main` while
resolving a relative `--archive` argument (`none` when no directory is
created). -/
def mainArchiveMkdir (archive_arg : Option String) (output : String) :
    Option String :=
  match archive_arg with
  | none => none
  | some a =>
    if a = "" then none
    else if isAbsolute a then none
    else some (parentDir (pathJoin output a))

/-- The default output template, source line 144. -/
def defaultTemplate : String :=
  "%(uploader)s/%(upload_date>%Y-%m-%d)s - %(title).200B [%(id)s].%(ext)s"

/-- The keyword arguments of `VideoDownloader.download_video`
(source lines 88-108) that influence the built engine options. -/
structure DownloadParams where
  quality : String := "best"
  format_type : String := "video"
  audio_format : String := "mp3"
  video_format : String := "mp4"
  outtmpl : Option String := none
  download_archive : Option String := none
  retries : Nat := 10
  fragment_retries : Nat := 10
  writesubtitles : Bool := false
  embedsubtitles : Bool := false
  subtitleslangs : Option String := none
  proxy : Option String := none
  rate_limit : Option String := none
  concurrent_fragments : Option Nat := none
  sponsorblock_remove : Option String := none
  write_thumbnail : Bool := false
  embed_thumbnail : Bool := false
deriving Repr, DecidableEq

/-- The `ydl_opts` dictionary assembled by `download_video`
(source lines 149-215), restricted to the keys the wrapper sets.
`format` and `postprocessors` are optional because the
`format_type == "both"` branch sets neither post-processors nor
subtitle/thumbnail keys. -/
structure YdlOpts where
  outtmpl : String
  retries : Nat
  fragment_retries : Nat
  skip_unavailable_fragments : Bool
  continuedl : Bool
  download_archive : String
  proxy : Option String := none
  ratelimit : Option String := none
  concurrent_fragment_downloads : Option Nat := none
  cookiesfrombrowser : Option String := none
  sponsorblock_remove : Option (List String) := none
  format : Option String := none
  postprocessors : Option (List PostProcessor) := none
  writesubtitles : Bool := false
  subtitleslangs : Option (List String) := none
  writethumbnail : Bool := false
deriving Repr, DecidableEq

/-- The option-building portion of `download_video`
(source lines 143-215), with `output_dir` the directory given to the
`VideoDownloader` constructor.  Each field mirrors one assignment of the
source; cookie support is omitted from `DownloadParams` claims but kept
as `none` here for fidelity of the record shape. -/
def buildOpts (output_dir : String) (p : DownloadParams) : YdlOpts :=
  let out_template := p.outtmpl.getD defaultTemplate
  let base : YdlOpts :=
    { outtmpl := pathJoin output_dir out_template
      retries := p.retries
      fragment_retries := p.fragment_retries
      skip_unavailable_fragments := true
      continuedl := true
      download_archive :=
        match p.download_archive with
        | some a => a
        | none => pathJoin output_dir "archive.txt"
      proxy := p.proxy
      ratelimit := p.rate_limit
      concurrent_fragment_downloads := p.concurrent_fragments
      sponsorblock_remove := p.sponsorblock_remove.map (fun s => strSplit s ',') }
  if p.format_type = "audio" then
    { base with
      format := some "bestaudio/best"
      writethumbnail := p.write_thumbnail
      postprocessors :=
        some (audioPostprocessors p.audio_format p.embed_thumbnail) }
  else if p.format_type = "video" then
    { base with
      format := some (videoFormatSelector p.quality p.video_format)
      writesubtitles := p.writesubtitles
      subtitleslangs :=
        if p.writesubtitles then
          p.subtitleslangs.map (fun s => (strSplit s ',').map strTrim)
        else none
      writethumbnail := p.write_thumbnail
      postprocessors :=
        some (videoPostprocessors p.writesubtitles p.embedsubtitles
          p.embed_thumbnail) }
  else
    { base with format := some "best" }

/-- The metadata record `get_video_info` builds from a successful
`extract_info` probe (source lines 76-83). -/
structure VideoInfo where
  title : String := "Unknown"
  duration : Nat := 0
  uploader : String := "Unknown"
  view_count : Nat := 0
  thumbnail : String := ""
deriving Repr, DecidableEq

/-- The external extraction/download engine (yt-dlp), abstracted as the
two calls the wrapper makes.  An `Except.error` models a Python
exception raised by the call; `download` receives the options record the
wrapper built (the real call is `ydl.download([url])` on a `YoutubeDL`
constructed from those options). -/
structure Engine where
  extract_info : String → Except String VideoInfo
  download : YdlOpts → String → Except String Unit

/-- `VideoDownloader.get_video_info` (source lines 66-86): probe the URL
without downloading; any exception is caught and an empty dictionary —
modelled as `none` — is returned. -/
def get_video_info (eng : Engine) (url : String) : Option VideoInfo :=
  match eng.extract_info url with
  | Except.ok info => some info
  | Except.error _ => none

/-- Observable effects of one `download_video` call: whether the probe
and the engine download were invoked, the options handed to the engine
(`none` when the call aborted before building them), and the boolean
return value. -/
structure JobTrace where
  url : String
  probeCalled : Bool
  downloadCalled : Bool
  opts : Option YdlOpts
  result : Bool
deriving Repr, DecidableEq

/-- Control flow of `VideoDownloader.download_video`
(source lines 121-244): probe first (unconditionally, line 124); return
`False` when the probe produced nothing; otherwise build the options and
invoke the engine download, returning `True` on normal completion and
`False` on any exception (lines 218-244). -/
def download_video (eng : Engine) (output_dir url : String)
    (p : DownloadParams) : JobTrace :=
  match get_video_info eng url with
  | none =>
    { url := url, probeCalled := true, downloadCalled := false,
      opts := none, result := false }
  | some _ =>
    let opts := buildOpts output_dir p
    match eng.download opts url with
    | Except.ok _ =>
      { url := url, probeCalled := true, downloadCalled := true,
        opts := some opts, result := true }
    | Except.error _ =>
      { url := url, probeCalled := true, downloadCalled := true,
        opts := some opts, result := false }

/-- Batch-file line handling in `main` (source lines 403-408): strip each
line, skip blank lines and `#` comments. -/
def parseBatchLines (lines : List String) : List String :=
  ((lines.map strTrim).filter
    (fun l => !l.data.isEmpty && !(strStartsWith l "#")))

/-- The batch loop of `main` (source lines 412-434): one
`download_video` call per URL, in order, each return value discarded
(`_ =` at line 415).  The `ledger` argument carries the contents of the
archive file; the source never reads it — only the resolved path is
forwarded inside `p.download_archive` — so it does not occur on the
right-hand side. -/
def runBatch (eng : Engine) (ledger : List String) (output_dir : String)
    (urls : List String) (p : DownloadParams) : List JobTrace :=
  match urls with
  | [] => []
  | u :: rest =>
    download_video eng output_dir u p :: runBatch eng ledger output_dir rest p

/-- A raw progress dictionary handed to the hook by the engine, restricted
to the keys the hook reads.  `none` models an absent key. -/
structure RawEvent where
  status : Option String := none
  downloaded_bytes : Option Nat := none
  total_bytes : Option Nat := none
  total_bytes_estimate : Option Nat := none
  speed : Option Nat := none
  eta : Option Nat := none
deriving Repr, DecidableEq

/-- The state of the rich progress task the hook updates.  Its initial
value mirrors `progress.add_task("[green]Downloading", total=100)` at
source line 228. -/
structure ProgressState where
  completed : Option Nat := some 0
  total : Option Nat := some 100
  description : String := "[green]Downloading"
deriving Repr, DecidableEq

/-- Stand-in for the external `yt_dlp.utils.format_bytes` helper (engine
code, out of scope); only its totality matters here. -/
def format_bytes (n : Nat) : String :=
  toString n

/-- `VideoDownloader.progress_hook` (source lines 49-64).  Subscript
access `d["status"]` and `d["downloaded_bytes"]` raises `KeyError` when
the key is absent, modelled as `Except.error`; `d.get("speed")` and
`d.get("eta")` are the null-safe accesses of the source. -/
def progress_hook (d : RawEvent) (st : ProgressState) :
    Except String ProgressState :=
  match d.status with
  | none => Except.error "KeyError: status"
  | some status =>
    if status = "downloading" then
      let upd : Except String ProgressState :=
        match d.total_bytes with
        | some tb =>
          match d.downloaded_bytes with
          | some db => Except.ok { st with completed := some db, total := some tb }
          | none => Except.error "KeyError: downloaded_bytes"
        | none =>
          match d.total_bytes_estimate with
          | some tbe =>
            match d.downloaded_bytes with
            | some db =>
              Except.ok { st with completed := some db, total := some tbe }
            | none => Except.error "KeyError: downloaded_bytes"
          | none => Except.ok st
      match upd with
      | Except.error e => Except.error e
      | Except.ok st1 =>
        let parts := ["Downloading"] ++
          (match d.speed with
           | some s => [format_bytes s ++ "/s"]
           | none => []) ++
          (match d.eta with
           | some e => ["ETA " ++ toString e ++ "s"]
           | none => [])
        Except.ok { st1 with description := String.intercalate " " parts }
    else if status = "finished" then
      Except.ok { st with completed := some 100, total := some 100 }
    else
      Except.ok st

/-- How the process was invoked, after argument parsing
(source lines 391-437): batch mode carries the outcome of reading the
batch file (`none` when the read raised, lines 402-411); interactive
mode carries the console answers (URL, menu choice, and the quality and
audio-format answers of choices 2 and 3); single mode is the plain
command-line path, with its `--list-formats` flag. -/
inductive Invocation where
  | batchMode (fileLines : Option (List String))
  | interactiveMode (url choice qualityAnswer audioAnswer : String)
  | singleMode (url : String) (listFormats : Bool)
deriving Repr, DecidableEq

/-- The body of `main` after argument parsing (source lines 398-543),
returning the process exit status together with the `download_video`
calls performed.  The only `sys.exit(1)` inside `main` is the
batch-file read failure (line 411); every other path falls through and
the process exits 0, the per-job boolean results being discarded. -/
def mainRun (eng : Engine) (ledger : List String) (inv : Invocation)
    (output : String) (p : DownloadParams) : Nat × List JobTrace :=
  match inv with
  | Invocation.batchMode none => (1, [])
  | Invocation.batchMode (some lines) =>
    (0, runBatch eng ledger output (parseBatchLines lines) p)
  | Invocation.interactiveMode url choice qAns aAns =>
    if choice = "1" then
      (0, [download_video eng output url
        { p with quality := "best", format_type := "video" }])
    else if choice = "2" then
      (0, [download_video eng output url
        { p with quality := qAns, format_type := "video" }])
    else if choice = "3" then
      (0, [download_video eng output url
        { p with quality := "best", format_type := "audio", audio_format := aAns }])
    else
      (0, [])
  | Invocation.singleMode _ true => (0, [])
  | Invocation.singleMode url false =>
    (0, [download_video eng output url p])

/-- Exit status of the whole process: the import guard at source
lines 15-25 exits 1 when a required dependency is missing, before `main`
runs; otherwise the status is whatever `main` produces. -/
def programExitCode (importOk : Bool) (eng : Engine) (ledger : List String)
    (inv : Invocation) (output : String) (p : DownloadParams) : Nat :=
  if importOk then (mainRun eng ledger inv output p).fst else 1

/-- End-to-end archive path: the optional `--archive` argument resolved by
`main` (lines 393-397) composed with the in-`download_video` default
(lines 159-163). -/
def resolvedArchive (archive_arg : Option String) (output : String) : String :=
  match mainArchivePath archive_arg output with
  | some a => a
  | none => pathJoin output "archive.txt"

/-- First alternative of a selector (before the first `/`). -/
def firstAlternative (sel : String) : String :=
  (strSplit sel '/').headD ""

/-- The audio leg of a `video+audio` pair selector: the part after the `+`
in the first alternative. -/
def audioLeg (sel : String) : String :=
  ((strSplit (firstAlternative sel) '+').drop 1).headD ""

/-- The video leg of a `video+audio` pair selector: the part before the `+`
in the first alternative. -/
def videoLeg (sel : String) : String :=
  (strSplit (firstAlternative sel) '+').headD ""

/-- A sample engine on which every probe and every download succeeds. -/
def engAlwaysOk : Engine :=
  { extract_info := fun _ => Except.ok {}
    download := fun _ _ => Except.ok () }

/-- A sample engine on which every probe raises, as `yt-dlp` does on an
empty or malformed URL. -/
def engProbeFails : Engine :=
  { extract_info := fun _ => Except.error "ExtractionError"
    download := fun _ _ => Except.ok () }

theorem download_video_url (eng : Engine) (output url : String)
    (p : DownloadParams) : (download_video eng output url p).url = url := by
  unfold download_video
  split
  · rfl
  · dsimp only
    split <;> rfl

theorem download_video_probeCalled (eng : Engine) (output url : String)
    (p : DownloadParams) :
    (download_video eng output url p).probeCalled = true := by
  unfold download_video
  split
  · rfl
  · dsimp only
    split <;> rfl

theorem runBatch_eq_map (eng : Engine) (ledger : List String)
    (output : String) (urls : List String) (p : DownloadParams) :
    runBatch eng ledger output urls p =
      urls.map (fun u => download_video eng output u p) := by
  induction urls with
  | nil => rfl
  | cons u rest ih => simp [runBatch, ih]

theorem buildOpts_download_archive (output : String) (p : DownloadParams) :
    (buildOpts output p).download_archive =
      p.download_archive.getD (pathJoin output "archive.txt") := by
  unfold buildOpts
  cases p.download_archive <;>
    by_cases h1 : p.format_type = "audio" <;>
      by_cases h2 : p.format_type = "video" <;> simp [h1, h2]

theorem mem_videoPostprocessors_embedSubtitle (ws es et : Bool) :
    ({ key := "FFmpegEmbedSubtitle" } : PostProcessor) ∈
        videoPostprocessors ws es et ↔ ws = true ∧ es = true := by
  cases ws <;> cases es <;> cases et <;> decide

theorem mem_videoPostprocessors_embedThumbnail (ws es et : Bool) :
    ({ key := "EmbedThumbnail" } : PostProcessor) ∈
        videoPostprocessors ws es et ↔ et = true := by
  cases ws <;> cases es <;> cases et <;> decide

/-- C1: the claim requires the height bound of a token `NNNp` to be
applied to both the video and the audio legs independently, each with
its own fallback.  At quality `720p` the produced selector is
`bestvideo[height<=720]+bestaudio/best[height<=720]`: its audio leg is
plain `bestaudio`, carrying no height bound and no fallback of its own —
one shared fallback follows the whole pair — so the claim fails. -/
theorem C1_counterexample :
    videoFormatSelector "720p" "mp4" =
      "bestvideo[height<=720]+bestaudio/best[height<=720]" ∧
    audioLeg (videoFormatSelector "720p" "mp4") = "bestaudio" ∧
    strContains (audioLeg (videoFormatSelector "720p" "mp4")) "height<=" =
      false := by
  refine ⟨by decide, by decide, by decide⟩

/-- C1 (amended): for every valid quality token the video-kind selector
is non-empty; `best` yields the container-matched
video-plus-best-audio pair with fallbacks to the container-matched
combined stream and then any best; `worst` yields the engine alias
`worst`; a height token yields the bound `height<=NNN` on the video leg
and on the shared combined fallback, with the audio leg an unbounded
`bestaudio`. -/
theorem C1_amended_quality_selector (quality video_format : String)
    (hq : quality ∈ ["best", "worst", "720p", "1080p", "480p", "360p"])
    (hv : video_format ∈ ["mp4", "webm", "mkv"]) :
    videoFormatSelector quality video_format ≠ "" ∧
    (quality = "best" →
      videoFormatSelector quality video_format =
        "bestvideo[ext=" ++ video_format ++ "]+bestaudio[ext=m4a]/best[ext=" ++
          video_format ++ "]/best") ∧
    (quality = "worst" → videoFormatSelector quality video_format = "worst") ∧
    (quality ≠ "best" → quality ≠ "worst" →
      videoFormatSelector quality video_format =
        "bestvideo[height<=" ++ heightBound quality ++
          "]+bestaudio/best[height<=" ++ heightBound quality ++ "]" ∧
      strContains (videoLeg (videoFormatSelector quality video_format))
        ("height<=" ++ heightBound quality) = true ∧
      audioLeg (videoFormatSelector quality video_format) = "bestaudio") := by
  fin_cases hq <;> fin_cases hv <;> decide

/-- Witness instantiation of the amended C1 statement at `720p`/`mp4`. -/
theorem C1_amended_quality_selector_witness :
    (("720p" : String) ∈ ["best", "worst", "720p", "1080p", "480p", "360p"]) ∧
    (("mp4" : String) ∈ ["mp4", "webm", "mkv"]) ∧
    (videoFormatSelector "720p" "mp4" ≠ "" ∧
      ("720p" = "best" →
        videoFormatSelector "720p" "mp4" =
          "bestvideo[ext=" ++ "mp4" ++ "]+bestaudio[ext=m4a]/best[ext=" ++
            "mp4" ++ "]/best") ∧
      ("720p" = "worst" → videoFormatSelector "720p" "mp4" = "worst") ∧
      ("720p" ≠ "best" → "720p" ≠ "worst" →
        videoFormatSelector "720p" "mp4" =
          "bestvideo[height<=" ++ heightBound "720p" ++
            "]+bestaudio/best[height<=" ++ heightBound "720p" ++ "]" ∧
        strContains (videoLeg (videoFormatSelector "720p" "mp4"))
          ("height<=" ++ heightBound "720p") = true ∧
        audioLeg (videoFormatSelector "720p" "mp4") = "bestaudio")) :=
  ⟨by decide, by decide,
    C1_amended_quality_selector "720p" "mp4" (by decide) (by decide)⟩

/-- C2: with the item identifier `v1` already present in the ledger, the
batch run still invokes the engine download for the corresponding URL
and records an ordinary success rather than a skip: the source forwards
only the archive path inside the engine options and performs no ledger
lookup of its own, and the loop discards every per-job result, so no
skipped count exists. -/
theorem C2_counterexample :
    ("v1" ∈ ["v1"]) ∧
    (runBatch engAlwaysOk ["v1"] "downloads" ["https://example.com/v1"]
        { download_archive := some "downloads/archive.txt" }).map
      (fun t => (t.downloadCalled, t.result)) = [(true, true)] :=
  ⟨by decide, rfl⟩

/-- C2 (amended): the batch loop runs one `download_video` job for every
URL whatever the ledger contents, and that job invokes the engine
download whenever the probe succeeds; deduplication is delegated to the
engine through the `download_archive` option, which always carries the
resolved ledger path. -/
theorem C2_amended_engine_side_skip (eng : Engine) (ledger : List String)
    (output : String) (urls : List String) (p : DownloadParams)
    (u : String) (hu : u ∈ urls)
    (hprobe : (eng.extract_info u).isOk = true) :
    download_video eng output u p ∈ runBatch eng ledger output urls p ∧
    (download_video eng output u p).downloadCalled = true ∧
    (download_video eng output u p).opts = some (buildOpts output p) ∧
    (buildOpts output p).download_archive =
      p.download_archive.getD (pathJoin output "archive.txt") := by
  refine ⟨?_, ?_, ?_, buildOpts_download_archive output p⟩
  · rw [runBatch_eq_map]
    exact List.mem_map_of_mem _ hu
  · unfold download_video get_video_info
    cases h : eng.extract_info u with
    | ok info => dsimp only; cases eng.download (buildOpts output p) u <;> rfl
    | error e => rw [h] at hprobe; exact absurd hprobe (by simp [Except.isOk, Except.toBool])
  · unfold download_video get_video_info
    cases h : eng.extract_info u with
    | ok info => dsimp only; cases eng.download (buildOpts output p) u <;> rfl
    | error e => rw [h] at hprobe; exact absurd hprobe (by simp [Except.isOk, Except.toBool])

/-- Witness instantiation of the amended C2 statement: one URL, archived
identifier in the ledger, engine succeeding. -/
theorem C2_amended_engine_side_skip_witness :
    ("https://example.com/v1" ∈ ["https://example.com/v1"]) ∧
    ((engAlwaysOk.extract_info "https://example.com/v1").isOk = true) ∧
    (download_video engAlwaysOk "downloads" "https://example.com/v1" {} ∈
      runBatch engAlwaysOk ["v1"] "downloads" ["https://example.com/v1"] {} ∧
    (download_video engAlwaysOk "downloads" "https://example.com/v1" {}).downloadCalled = true ∧
    (download_video engAlwaysOk "downloads" "https://example.com/v1" {}).opts =
      some (buildOpts "downloads" {}) ∧
    (buildOpts "downloads" ({} : DownloadParams)).download_archive =
      (DownloadParams.download_archive {}).getD (pathJoin "downloads" "archive.txt")) :=
  ⟨by decide, rfl,
    C2_amended_engine_side_skip engAlwaysOk ["v1"] "downloads"
      ["https://example.com/v1"] {} "https://example.com/v1"
      (by decide) rfl⟩

/-- C3: the batch loop produces exactly one job per URL, in the input
order, and the jobs of a suffix of the batch are unchanged by whatever
happened earlier — in particular an earlier job returning `False` never
prevents the remaining URLs from being processed, since each job is a
function of its own URL alone. -/
theorem C3_order_and_isolation (eng : Engine) (ledger : List String)
    (output : String) (urls : List String) (p : DownloadParams) :
    (runBatch eng ledger output urls p).map JobTrace.url = urls ∧
    (runBatch eng ledger output urls p).length = urls.length ∧
    (∀ pre post, runBatch eng ledger output (pre ++ post) p =
      runBatch eng ledger output pre p ++ runBatch eng ledger output post p) := by
  refine ⟨?_, ?_, ?_⟩
  · rw [runBatch_eq_map, List.map_map]
    have : (JobTrace.url ∘ fun u => download_video eng output u p) = id := by
      funext u
      exact download_video_url eng output u p
    rw [this, List.map_id]
  · rw [runBatch_eq_map, List.length_map]
  · intro pre post
    rw [runBatch_eq_map, runBatch_eq_map, runBatch_eq_map, List.map_append]

/-- C4: a video-kind job built with `write_thumbnail = False` and
`embed_thumbnail = True` still carries the `EmbedThumbnail`
post-processor while `writethumbnail` stays unset in the options, so the
thumbnail-embed step is not conditional on the write capability. -/
theorem C4_counterexample :
    (buildOpts "downloads"
      { format_type := "video", write_thumbnail := false,
        embed_thumbnail := true }).writethumbnail = false ∧
    (buildOpts "downloads"
      { format_type := "video", write_thumbnail := false,
        embed_thumbnail := true }).postprocessors =
      some [{ key := "FFmpegMetadata" }, { key := "EmbedThumbnail" }] :=
  ⟨rfl, rfl⟩

/-- C4 (amended): in a video-kind job the subtitle-embed step appears
exactly when both subtitle writing and subtitle embedding are enabled,
while the thumbnail-embed step appears exactly when thumbnail embedding
is requested, independently of the thumbnail-write flag. -/
theorem C4_amended_embed_steps (output : String) (p : DownloadParams)
    (hv : p.format_type = "video") :
    (buildOpts output p).postprocessors =
      some (videoPostprocessors p.writesubtitles p.embedsubtitles
        p.embed_thumbnail) ∧
    (({ key := "FFmpegEmbedSubtitle" } : PostProcessor) ∈
        videoPostprocessors p.writesubtitles p.embedsubtitles p.embed_thumbnail ↔
      p.writesubtitles = true ∧ p.embedsubtitles = true) ∧
    (({ key := "EmbedThumbnail" } : PostProcessor) ∈
        videoPostprocessors p.writesubtitles p.embedsubtitles p.embed_thumbnail ↔
      p.embed_thumbnail = true) ∧
    (buildOpts output p).writethumbnail = p.write_thumbnail := by
  refine ⟨?_, mem_videoPostprocessors_embedSubtitle _ _ _,
    mem_videoPostprocessors_embedThumbnail _ _ _, ?_⟩ <;>
    simp [buildOpts, hv]

/-- Witness instantiation of the amended C4 statement with all four
subtitle/thumbnail flags enabled. -/
theorem C4_amended_embed_steps_witness :
    (DownloadParams.format_type
      { format_type := "video", writesubtitles := true,
        embedsubtitles := true, write_thumbnail := true,
        embed_thumbnail := true } = "video") ∧
    ((buildOpts "downloads"
        { format_type := "video", writesubtitles := true,
          embedsubtitles := true, write_thumbnail := true,
          embed_thumbnail := true }).postprocessors =
      some (videoPostprocessors true true true) ∧
    (({ key := "FFmpegEmbedSubtitle" } : PostProcessor) ∈
        videoPostprocessors true true true ↔ true = true ∧ true = true) ∧
    (({ key := "EmbedThumbnail" } : PostProcessor) ∈
        videoPostprocessors true true true ↔ true = true) ∧
    (buildOpts "downloads"
        { format_type := "video", writesubtitles := true,
          embedsubtitles := true, write_thumbnail := true,
          embed_thumbnail := true }).writethumbnail = true) :=
  ⟨rfl, C4_amended_embed_steps "downloads"
    { format_type := "video", writesubtitles := true, embedsubtitles := true,
      write_thumbnail := true, embed_thumbnail := true } rfl⟩

/-- C5: `download_video` on the empty URL still contacts the extraction
engine — the probe is invoked before anything else — and no
`ValidationError` exists anywhere in the source: the call merely returns
`False` after the probe raises, refuting validation-before-network. -/
theorem C5_counterexample :
    (download_video engProbeFails "downloads" "" {}).probeCalled = true ∧
    (download_video engProbeFails "downloads" "" {}).downloadCalled = false ∧
    (download_video engProbeFails "downloads" "" {}).result = false :=
  ⟨rfl, rfl, rfl⟩

/-- C5 (amended): there is no local validation step: every URL, the
empty string included, is handed to the engine probe first, and when the
probe raises the call returns `False` without invoking the download —
failure surfaces through the probe, not through a `ValidationError`. -/
theorem C5_amended_no_validation (eng : Engine) (output url : String)
    (p : DownloadParams)
    (hprobe : (eng.extract_info url).isOk = false) :
    (download_video eng output url p).probeCalled = true ∧
    (download_video eng output url p).downloadCalled = false ∧
    (download_video eng output url p).result = false := by
  refine ⟨download_video_probeCalled eng output url p, ?_, ?_⟩ <;>
  · unfold download_video get_video_info
    cases h : eng.extract_info url with
    | ok info => rw [h] at hprobe; exact absurd hprobe (by simp [Except.isOk, Except.toBool])
    | error e => rfl

/-- Witness instantiation of the amended C5 statement: empty URL on an
engine whose probe always raises. -/
theorem C5_amended_no_validation_witness :
    ((engProbeFails.extract_info "").isOk = false) ∧
    ((download_video engProbeFails "downloads" "" {}).probeCalled = true ∧
     (download_video engProbeFails "downloads" "" {}).downloadCalled = false ∧
     (download_video engProbeFails "downloads" "" {}).result = false) :=
  ⟨rfl, C5_amended_no_validation engProbeFails "downloads" "" {} rfl⟩

/-- C6: the progress callback raises rather than swallowing translation
errors: an event with no `status` key raises `KeyError`, and a
`downloading` event that carries a byte total but no `downloaded_bytes`
key raises `KeyError` as well, so the exception propagates to the
engine download loop. -/
theorem C6_counterexample :
    progress_hook {} {} = Except.error "KeyError: status" ∧
    progress_hook { status := some "downloading", total_bytes := some 100 } {} =
      Except.error "KeyError: downloaded_bytes" :=
  ⟨rfl, rfl⟩

/-- C6 (amended): the callback returns normally exactly on well-formed
events: whenever the event carries a `status` key and — for a
`downloading` event that carries `total_bytes` or
`total_bytes_estimate` — also a `downloaded_bytes` key, the hook
completes without raising.  Events missing those keys raise `KeyError`
instead of being swallowed. -/
theorem C6_amended_wellformed_events (d : RawEvent) (st : ProgressState)
    (hs : d.status.isSome = true)
    (hb : d.status = some "downloading" →
      (d.total_bytes.isSome || d.total_bytes_estimate.isSome) = true →
      d.downloaded_bytes.isSome = true) :
    ∃ st2, progress_hook d st = Except.ok st2 := by
  obtain ⟨stat, db, tb, tbe, sp, eta⟩ := d
  cases stat with
  | none => simp at hs
  | some s =>
    by_cases hdl : s = "downloading"
    · subst hdl
      cases tb with
      | some tbv =>
        cases db with
        | some dbv => cases sp <;> cases eta <;> exact ⟨_, rfl⟩
        | none => have := hb rfl (by simp); simp at this
      | none =>
        cases tbe with
        | some tbev =>
          cases db with
          | some dbv => cases sp <;> cases eta <;> exact ⟨_, rfl⟩
          | none => have := hb rfl (by simp); simp at this
        | none => cases db <;> cases sp <;> cases eta <;> exact ⟨_, rfl⟩
    · by_cases hfin : s = "finished"
      · subst hfin; exact ⟨_, rfl⟩
      · refine ⟨st, ?_⟩
        unfold progress_hook
        simp [hdl, hfin]

/-- Witness instantiation of the amended C6 statement on a `finished`
event. -/
theorem C6_amended_wellformed_events_witness :
    ((RawEvent.status { status := some "finished" }).isSome = true) ∧
    (∃ st2, progress_hook { status := some "finished" } {} = Except.ok st2) :=
  ⟨rfl, C6_amended_wellformed_events { status := some "finished" } {} rfl
    (fun h => absurd (Option.some.inj h) (by decide))⟩

/-- C7: an audio-kind job selects `bestaudio/best` — the engine
best-audio selection with its final fallback — and its post-processing
steps start with the audio-extraction step parameterised by the
requested codec and end with the metadata step; with thumbnail
embedding requested the full order is extract-audio, embed-thumbnail,
metadata. -/
theorem C7_audio_job (output : String) (p : DownloadParams)
    (ha : p.format_type = "audio") :
    (buildOpts output p).format = some "bestaudio/best" ∧
    strContains "bestaudio/best" "bestaudio" = true ∧
    (buildOpts output p).postprocessors =
      some (audioPostprocessors p.audio_format p.embed_thumbnail) ∧
    audioPostprocessors p.audio_format true =
      [{ key := "FFmpegExtractAudio", preferredcodec := some p.audio_format,
         preferredquality := some "192" },
       { key := "EmbedThumbnail" },
       { key := "FFmpegMetadata" }] ∧
    (audioPostprocessors p.audio_format p.embed_thumbnail).head? =
      some { key := "FFmpegExtractAudio", preferredcodec := some p.audio_format,
             preferredquality := some "192" } ∧
    (audioPostprocessors p.audio_format p.embed_thumbnail).getLast? =
      some { key := "FFmpegMetadata" } := by
  refine ⟨?_, by decide, ?_, rfl, rfl, ?_⟩
  · simp [buildOpts, ha]
  · simp [buildOpts, ha]
  · cases het : p.embed_thumbnail <;> rfl

/-- Witness instantiation of C7 on an audio job with thumbnail embedding
requested. -/
theorem C7_audio_job_witness :
    (DownloadParams.format_type
      { format_type := "audio", audio_format := "mp3",
        embed_thumbnail := true } = "audio") ∧
    ((buildOpts "downloads"
        { format_type := "audio", audio_format := "mp3",
          embed_thumbnail := true }).format = some "bestaudio/best" ∧
     strContains "bestaudio/best" "bestaudio" = true ∧
     (buildOpts "downloads"
        { format_type := "audio", audio_format := "mp3",
          embed_thumbnail := true }).postprocessors =
       some (audioPostprocessors "mp3" true) ∧
     audioPostprocessors "mp3" true =
       [{ key := "FFmpegExtractAudio", preferredcodec := some "mp3",
          preferredquality := some "192" },
        { key := "EmbedThumbnail" },
        { key := "FFmpegMetadata" }] ∧
     (audioPostprocessors "mp3" true).head? =
       some { key := "FFmpegExtractAudio", preferredcodec := some "mp3",
              preferredquality := some "192" } ∧
     (audioPostprocessors "mp3" true).getLast? =
       some { key := "FFmpegMetadata" }) :=
  ⟨rfl, C7_audio_job "downloads"
    { format_type := "audio", audio_format := "mp3", embed_thumbnail := true }
    rfl⟩

/-- C8: archive path resolution — no explicit path defaults to
`archive.txt` inside the output directory; an explicit absolute path is
used verbatim with no directory creation; an explicit relative path is
joined onto the output directory and its parent directory is created;
and the resolved path is what reaches the engine options through
`download_video`. -/
theorem C8_archive_resolution (output a : String) (p : DownloadParams) :
    resolvedArchive none output = pathJoin output "archive.txt" ∧
    (a ≠ "" → isAbsolute a = true →
      resolvedArchive (some a) output = a ∧
      mainArchiveMkdir (some a) output = none) ∧
    (a ≠ "" → isAbsolute a = false →
      resolvedArchive (some a) output = pathJoin output a ∧
      mainArchiveMkdir (some a) output =
        some (parentDir (pathJoin output a))) ∧
    (buildOpts output
        { p with download_archive :=
            mainArchivePath (some a) output }).download_archive =
      resolvedArchive (some a) output ∧
    (buildOpts output
        { p with download_archive := none }).download_archive =
      pathJoin output "archive.txt" := by
  refine ⟨rfl, ?_, ?_, ?_, ?_⟩
  · intro ha habs
    unfold resolvedArchive mainArchivePath mainArchiveMkdir
    simp [ha, habs]
  · intro ha habs
    unfold resolvedArchive mainArchivePath mainArchiveMkdir
    simp [ha, habs]
  · rw [buildOpts_download_archive]
    unfold resolvedArchive
    cases mainArchivePath (some a) output <;> rfl
  · rw [buildOpts_download_archive]; rfl

/-- Witness instantiation of C8 at an absolute and a relative explicit
archive path over the default output directory. -/
theorem C8_archive_resolution_witness :
    resolvedArchive none "downloads" = pathJoin "downloads" "archive.txt" ∧
    resolvedArchive (some "/var/ledger.txt") "downloads" = "/var/ledger.txt" ∧
    mainArchiveMkdir (some "/var/ledger.txt") "downloads" = none ∧
    resolvedArchive (some "sub/ledger.txt") "downloads" =
      pathJoin "downloads" "sub/ledger.txt" ∧
    mainArchiveMkdir (some "sub/ledger.txt") "downloads" =
      some (parentDir (pathJoin "downloads" "sub/ledger.txt")) :=
  ⟨(C8_archive_resolution "downloads" "/var/ledger.txt" {}).1,
   ((C8_archive_resolution "downloads" "/var/ledger.txt" {}).2.1
     (by decide) (by decide)).1,
   ((C8_archive_resolution "downloads" "/var/ledger.txt" {}).2.1
     (by decide) (by decide)).2,
   ((C8_archive_resolution "downloads" "sub/ledger.txt" {}).2.2.1
     (by decide) (by decide)).1,
   ((C8_archive_resolution "downloads" "sub/ledger.txt" {}).2.2.1
     (by decide) (by decide)).2⟩

/-- C9: the process exit status is non-zero exactly when the import
guard fails or the batch file cannot be read; every other invocation —
including batches whose individual jobs all fail, which any `eng`
realises — exits zero, and the only non-zero status used is 1. -/
theorem C9_exit_codes (importOk : Bool) (eng : Engine) (ledger : List String)
    (inv : Invocation) (output : String) (p : DownloadParams) :
    (programExitCode importOk eng ledger inv output p ≠ 0 ↔
      importOk = false ∨ inv = Invocation.batchMode none) ∧
    (programExitCode importOk eng ledger inv output p = 0 ∨
      programExitCode importOk eng ledger inv output p = 1) := by
  cases importOk with
  | false => simp [programExitCode]
  | true =>
    cases inv with
    | batchMode fl => cases fl <;> simp [programExitCode, mainRun]
    | interactiveMode u c q a2 =>
      have h0 : programExitCode true eng ledger
          (Invocation.interactiveMode u c q a2) output p = 0 := by
        have h1 : programExitCode true eng ledger
            (Invocation.interactiveMode u c q a2) output p =
            (mainRun eng ledger (Invocation.interactiveMode u c q a2)
              output p).1 := by
          unfold programExitCode
          exact if_pos rfl
        rw [h1]
        unfold mainRun
        dsimp only
        split_ifs <;> rfl
      rw [h0]; simp
    | singleMode u lf =>
      have h0 : programExitCode true eng ledger
          (Invocation.singleMode u lf) output p = 0 := by
        cases lf <;> rfl
      rw [h0]; simp

/-- C10: `download_video` returns `True` exactly when the probe produced
metadata and the engine download completed without exception; a failed
probe yields `False` with no download attempt, and a raised download
yields `False` — in the model both engine failures are plain values, so
neither is propagated and the call is total. -/
theorem C10_result_classification (eng : Engine) (output url : String)
    (p : DownloadParams) :
    ((download_video eng output url p).result = true ↔
      (eng.extract_info url).isOk = true ∧
      (eng.download (buildOpts output p) url).isOk = true) ∧
    ((eng.extract_info url).isOk = false →
      (download_video eng output url p).result = false ∧
      (download_video eng output url p).downloadCalled = false) ∧
    (∀ e, eng.download (buildOpts output p) url = Except.error e →
      (download_video eng output url p).result = false) := by
  unfold download_video get_video_info
  cases hp : eng.extract_info url with
  | error e =>
    dsimp only
    exact ⟨by simp [Except.isOk, Except.toBool], fun _ => ⟨rfl, rfl⟩,
      fun e2 _ => rfl⟩
  | ok info =>
    dsimp only
    cases hd : eng.download (buildOpts output p) url with
    | ok u2 =>
      refine ⟨by simp [Except.isOk, Except.toBool], ?_, ?_⟩
      · intro h; simp [Except.isOk, Except.toBool] at h
      · exact fun e2 h2 => Except.noConfusion h2
    | error e2 =>
      refine ⟨by simp [Except.isOk, Except.toBool], ?_, fun e3 _ => rfl⟩
      intro h; simp [Except.isOk, Except.toBool] at h

/-- Witness instantiation of C10 on an always-succeeding engine and on
an engine whose probe raises. -/
theorem C10_result_classification_witness :
    ((download_video engAlwaysOk "downloads" "https://example.com/v1"
      {}).result = true) ∧
    ((engProbeFails.extract_info "u").isOk = false) ∧
    ((download_video engProbeFails "downloads" "u" {}).result = false ∧
     (download_video engProbeFails "downloads" "u" {}).downloadCalled = false) :=
  ⟨(C10_result_classification engAlwaysOk "downloads" "https://example.com/v1"
      {}).1.mpr ⟨rfl, rfl⟩,
   rfl,
   (C10_result_classification engProbeFails "downloads" "u" {}).2.1 rfl⟩

end VideoDL
